import Mathlib

/-!
Shallow embedding of `src/server.js` of figma-jira-proxy: the single
`POST /api/jira-proxy` Express handler.  JSON values are modelled by an
inductive `Json` type, the upstream (axios) call by an oracle
`UpstreamRequest → AxiosOutcome`, and the handler by the pure function
`handle`.  All definitions are translated from the source file.
-/

namespace JiraProxy

/-- JSON values, as produced and consumed by the handler. -/
inductive Json where
  | null
  | bool (b : Bool)
  | num (n : Int)
  | str (s : String)
  | arr (xs : List Json)
  | obj (fields : List (String × Json))
deriving Repr

mutual

/-- Structural equality test on `Json`. -/
def Json.beq : Json → Json → Bool
  | .null, .null => true
  | .bool a, .bool b => a == b
  | .num a, .num b => a == b
  | .str a, .str b => a == b
  | .arr a, .arr b => Json.beqList a b
  | .obj a, .obj b => Json.beqFields a b
  | _, _ => false

/-- Structural equality test on lists of `Json`. -/
def Json.beqList : List Json → List Json → Bool
  | [], [] => true
  | a :: as, b :: bs => Json.beq a b && Json.beqList as bs
  | _, _ => false

/-- Structural equality test on `Json` object field lists. -/
def Json.beqFields : List (String × Json) → List (String × Json) → Bool
  | [], [] => true
  | (ka, va) :: as, (kb, vb) :: bs => ka == kb && Json.beq va vb && Json.beqFields as bs
  | _, _ => false

end

theorem Json.beq_iff : ∀ (a b : Json), Json.beq a b = true ↔ a = b := by
  apply Json.beq.induct
    (fun a b => Json.beq a b = true ↔ a = b)
    (fun as bs => Json.beqFields as bs = true ↔ as = bs)
    (fun as bs => Json.beqList as bs = true ↔ as = bs)
  · simp [Json.beq]
  · intro a b; simp [Json.beq]
  · intro a b; simp [Json.beq]
  · intro a b; simp [Json.beq]
  · intro a b ih; simp [Json.beq, ih]
  · intro a b ih; simp [Json.beq, ih]
  · intro t x h1 h2 h3 h4 h5 h6
    cases t <;> cases x <;>
      first
        | exact (h1 rfl rfl).elim
        | exact (h2 _ _ rfl rfl).elim
        | exact (h3 _ _ rfl rfl).elim
        | exact (h4 _ _ rfl rfl).elim
        | exact (h5 _ _ rfl rfl).elim
        | exact (h6 _ _ rfl rfl).elim
        | exact iff_of_false (by simp [Json.beq]) (fun e => Json.noConfusion e)
  · simp [Json.beqList]
  · intro a as b bs ih1 ih2; simp [Json.beqList, ih1, ih2]
  · intro t x h1 h2
    rcases t with _ | ⟨a, as⟩ <;> rcases x with _ | ⟨b, bs⟩
    · exact (h1 rfl rfl).elim
    · exact iff_of_false (by simp [Json.beqList]) (by simp)
    · exact iff_of_false (by simp [Json.beqList]) (by simp)
    · exact (h2 a as b bs rfl rfl).elim
  · simp [Json.beqFields]
  · intro ka va as kb vb bs ih1 ih2
    simp [Json.beqFields, ih1, ih2, Prod.ext_iff, and_assoc]
  · intro t x h1 h2
    rcases t with _ | ⟨⟨ka, va⟩, as⟩ <;> rcases x with _ | ⟨⟨kb, vb⟩, bs⟩
    · exact (h1 rfl rfl).elim
    · exact iff_of_false (by simp [Json.beqFields]) (by simp)
    · exact iff_of_false (by simp [Json.beqFields]) (by simp)
    · exact (h2 ka va as kb vb bs rfl rfl).elim

instance : DecidableEq Json := fun a b => decidable_of_iff _ (Json.beq_iff a b)

/-! ## Strings as in JavaScript: substring search, `base64`, regex pieces -/

/-- Does `pat` match at the head of `l`? -/
def matchesAt (pat l : List Char) : Bool :=
  match pat, l with
  | [], _ => true
  | _ :: _, [] => false
  | p :: ps, c :: cs => p == c && matchesAt ps cs

/-- Helper for `jsIncludes`: does `needle` occur as a contiguous run in the
character list?  Mirrors JavaScript `String.prototype.includes`. -/
def includesAux (needle : List Char) : List Char → Bool
  | [] => needle.isEmpty
  | c :: rest => matchesAt needle (c :: rest) || includesAux needle rest

/-- JavaScript `hay.includes(needle)`. -/
def jsIncludes (hay needle : String) : Bool :=
  includesAux needle.data hay.data

/-- UTF-8 encoding of a single character, as a list of byte values
(what `Buffer.from(str)` produces per character in Node). -/
def utf8EncodeCharNat (c : Char) : List Nat :=
  let n := c.toNat
  if n < 0x80 then [n]
  else if n < 0x800 then
    [0xC0 + n / 64, 0x80 + n % 64]
  else if n < 0x10000 then
    [0xE0 + n / 4096, 0x80 + (n / 64) % 64, 0x80 + n % 64]
  else
    [0xF0 + n / 262144, 0x80 + (n / 4096) % 64, 0x80 + (n / 64) % 64, 0x80 + n % 64]

/-- UTF-8 bytes of a string (`Buffer.from(str)` in Node). -/
def utf8Bytes (s : String) : List Nat :=
  (s.data.map utf8EncodeCharNat).flatten

/-- The standard base64 alphabet. -/
def base64Alphabet : List Char :=
  "ABCDEFGHIJKLMNOPQRSTUVWXYZabcdefghijklmnopqrstuvwxyz0123456789+/".data

/-- The base64 digit for a 6-bit value. -/
def b64digit (n : Nat) : Char := base64Alphabet.getD n 'A'

/-- Base64 encoding of a byte list, with `=` padding
(Node `buffer.toString('base64')`). -/
def base64Core : List Nat → List Char
  | [] => []
  | [a] => [b64digit (a / 4), b64digit (a % 4 * 16), '=', '=']
  | [a, b] => [b64digit (a / 4), b64digit (a % 4 * 16 + b / 16), b64digit (b % 16 * 4), '=']
  | a :: b :: c :: rest =>
    b64digit (a / 4) :: b64digit (a % 4 * 16 + b / 16) ::
      b64digit (b % 16 * 4 + c / 64) :: b64digit (c % 64) :: base64Core rest

/-- `const base64Encode = (str) => Buffer.from(str).toString('base64');`
(server.js line 28). -/
def base64Encode (s : String) : String :=
  ⟨base64Core (utf8Bytes s)⟩

/-- JavaScript regex `\s` class membership (whitespace characters). -/
def jsWhitespace (c : Char) : Bool :=
  c == ' ' || c == '\t' || c == '\n' || c == '\r' || c == '\x0b' || c == '\x0c' ||
  c == '\u00a0' || c == '\u1680' ||
  (Nat.ble 0x2000 c.toNat && Nat.ble c.toNat 0x200a) ||
  c == '\u2028' || c == '\u2029' || c == '\u202f' || c == '\u205f' ||
  c == '\u3000' || c == '\ufeff'

/-- A character matched by `[^\s<]` in the Request ID regex. -/
def tokenChar (c : Char) : Bool :=
  !(jsWhitespace c) && !(c == '<')

/-- The literal part of the regex `/Request ID: ([^\s<]+)/`. -/
def requestIdMarker : List Char := "Request ID: ".data

/-- JavaScript regex search for `/Request ID: ([^\s<]+)/`: scan positions left
to right; at the first position where the literal marker matches and is
followed by at least one `[^\s<]` character, capture the maximal run of such
characters.  Mirrors `data.match(/Request ID: ([^\s<]+)/)` (server.js line 84). -/
def findMatch : List Char → Option (List Char)
  | [] => none
  | c :: rest =>
    if matchesAt requestIdMarker (c :: rest) then
      if ((c :: rest).drop requestIdMarker.length).takeWhile tokenChar = [] then
        findMatch rest
      else
        some (((c :: rest).drop requestIdMarker.length).takeWhile tokenChar)
    else findMatch rest

/-- The captured group of `s.match(/Request ID: ([^\s<]+)/)`, if any. -/
def extractRequestId (s : String) : Option String :=
  (findMatch s.data).map fun l => ⟨l⟩

/-- The `cloudfrontRequestId` value computed by the HTML-error branch
(server.js lines 82-90): extraction is attempted only when the upstream body
is a string, and yields `null` when no match is found. -/
def cloudfrontId (d : Json) : Json :=
  match d with
  | .str s =>
    match extractRequestId s with
    | some t => .str t
    | none => .null
  | _ => .null

/-! ## Request/response data model -/

/-- The inbound proxy request body (`req.body`): the five documented fields,
each possibly absent, plus the optional pass-through `body`. -/
structure ProxyRequest where
  jiraDomain : Option String
  jiraEmail : Option String
  jiraToken : Option String
  jiraApiEndpoint : Option String
  method : Option String
  body : Json

/-- The outbound request handed to axios (server.js lines 55-66). -/
structure UpstreamRequest where
  method : String
  url : String
  authorization : String
  contentType : String
  accept : String
  userAgent : String
  acceptLanguage : String
  data : Json
deriving DecidableEq

/-- The outcome of the axios call, as the handler's catch logic branches on
it: a resolved response (2xx), `error.response` (upstream HTTP error, with
status, `content-type` header and body), `error.request` (request sent, no
response), or a setup error (neither). -/
inductive AxiosOutcome where
  | ok (status : Nat) (data : Json)
  | errResponse (status : Nat) (contentType : Option String) (data : Json)
  | errNoResponse (message : String)
  | errSetup (message : String)
deriving DecidableEq

/-- The response sent back to the caller: HTTP status plus JSON body. -/
structure ProxyResponse where
  status : Nat
  body : Json
deriving DecidableEq

/-- JavaScript truthiness of a possibly-absent string field (the `!field`
checks on server.js line 37): absent and the empty string are falsy. -/
def truthy : Option String → Bool
  | none => false
  | some s => !s.isEmpty

/-- The validation predicate of server.js line 37:
`!jiraDomain || !jiraEmail || !jiraToken || !jiraApiEndpoint || !method`
fails exactly when this conjunction does not hold. -/
def hasRequiredFields (r : ProxyRequest) : Bool :=
  truthy r.jiraDomain && truthy r.jiraEmail && truthy r.jiraToken &&
    truthy r.jiraApiEndpoint && truthy r.method

/-- The 400 body of server.js line 39. -/
def missingFieldsMessage : String :=
  "Missing required fields: jiraDomain, jiraEmail, jiraToken, jiraApiEndpoint, method"

/-- The JSON body returned on validation failure. -/
def missingFieldsBody : Json :=
  .obj [("error", .str missingFieldsMessage)]

/-- The error message of the HTML-error branch (server.js line 92). -/
def htmlErrorMessage : String :=
  "Error connecting to Jira API. Jira returned an unexpected HTML response (possibly blocked by CloudFront)."

/-- The JSON body of the HTML-error branch (server.js lines 91-95). -/
def htmlErrorBody (cloudfrontRequestId : Json) : Json :=
  .obj [("error", .str htmlErrorMessage),
        ("jiraHtmlError", .bool true),
        ("cloudfrontRequestId", cloudfrontRequestId)]

/-- The JSON body of the generic upstream-error branch (server.js lines 98-102). -/
def jiraErrorBody (status : Nat) (data : Json) : Json :=
  .obj [("error", .str "Error from Jira API."),
        ("jiraErrorStatus", .num status),
        ("jiraErrorData", data)]

/-- The JSON body of the no-response branch (server.js line 105). -/
def noResponseBody : Json :=
  .obj [("error", .str "No response received from Jira (Gateway Timeout).")]

/-- The JSON body of the request-setup-error branch (server.js line 108). -/
def setupErrorBody (message : String) : Json :=
  .obj [("error", .str ("Proxy internal error: " ++ message))]

/-- The HTML test of server.js line 80:
`contentType && contentType.includes('text/html')`. -/
def isHtmlContentType : Option String → Bool
  | none => false
  | some ct => jsIncludes ct "text/html"

/-- The outbound request built on server.js lines 42-44 and 55-66:
URL `https://<domain>/rest/api/3/<endpoint>`, `Basic` authorization from
`base64(email ++ ":" ++ token)`, lower-cased method, fixed headers, and the
inbound `body` passed through as `data`. -/
def buildUpstreamRequest (jiraDomain jiraEmail jiraToken jiraApiEndpoint method : String)
    (body : Json) : UpstreamRequest :=
  { method := method.toLower
    url := "https://" ++ jiraDomain ++ "/rest/api/3" ++ "/" ++ jiraApiEndpoint
    authorization := "Basic " ++ base64Encode (jiraEmail ++ ":" ++ jiraToken)
    contentType := "application/json"
    accept := "application/json"
    userAgent := "Mozilla/5.0 (Windows NT 10.0; Win64; x64) AppleWebKit/537.36 (KHTML, like Gecko) Chrome/91.0.4472.124 Safari/537.36"
    acceptLanguage := "en-US,en;q=0.9,fa;q=0.8"
    data := body }

/-- The outbound request the handler builds from a validated inbound request. -/
def builtRequest (r : ProxyRequest) : UpstreamRequest :=
  buildUpstreamRequest (r.jiraDomain.getD "") (r.jiraEmail.getD "")
    (r.jiraToken.getD "") (r.jiraApiEndpoint.getD "") (r.method.getD "") r.body

/-- The `POST /api/jira-proxy` handler (server.js lines 34-109), with the
axios call abstracted as an oracle from the outbound request to its outcome. -/
def handle (r : ProxyRequest) (upstream : UpstreamRequest → AxiosOutcome) : ProxyResponse :=
  if !(hasRequiredFields r) then
    ⟨400, missingFieldsBody⟩
  else
    match upstream (builtRequest r) with
    | .ok status data => ⟨status, data⟩
    | .errResponse status ct data =>
      if isHtmlContentType ct then
        ⟨if status = 0 then 502 else status, htmlErrorBody (cloudfrontId data)⟩
      else
        ⟨status, jiraErrorBody status data⟩
    | .errNoResponse _ => ⟨504, noResponseBody⟩
    | .errSetup message => ⟨500, setupErrorBody message⟩

/-! ## Spec-side definition for the refinement claims about the
"Request ID" extraction -/

/-- Modelled from the spec's words for comparison with `findMatch`
(claims C4 and C10 speak of "the token extracted from the first
`Request ID: ` occurrence" / "taken immediately after the first
`Request ID: ` marker"): at the first occurrence of the marker, take the
maximal run of `[^\s<]` characters that follows; `none` when the marker does
not occur at all. -/
def specFirstMarkerRun : List Char → Option (List Char)
  | [] => none
  | c :: rest =>
    if matchesAt requestIdMarker (c :: rest) then
      some (((c :: rest).drop requestIdMarker.length).takeWhile tokenChar)
    else specFirstMarkerRun rest

/-- The `cloudfrontRequestId` the spec's words predict: the token at the
first marker occurrence when a (necessarily non-empty) token is there,
`null` otherwise. -/
def specCloudfrontId (d : Json) : Json :=
  match d with
  | .str s =>
    match specFirstMarkerRun s.data with
    | some tok => if tok = [] then .null else .str ⟨tok⟩
    | none => .null
  | _ => .null


/-! ## Helper lemmas on the string scanning functions -/

theorem matchesAt_iff : ∀ (pat l : List Char), matchesAt pat l = true ↔ ∃ t, l = pat ++ t := by
  intro pat
  induction pat with
  | nil => intro l; simp [matchesAt]
  | cons p ps ih =>
    intro l
    cases l with
    | nil =>
      simp only [matchesAt, List.cons_append]
      constructor
      · intro h; exact absurd h (by simp)
      · rintro ⟨t, ht⟩; exact absurd ht (by simp)
    | cons c cs =>
      simp only [matchesAt, Bool.and_eq_true, beq_iff_eq, ih cs, List.cons_append,
        List.cons.injEq]
      constructor
      · rintro ⟨rfl, t, rfl⟩; exact ⟨t, rfl, rfl⟩
      · rintro ⟨t, rfl, rfl⟩; exact ⟨rfl, t, rfl⟩

theorem includesAux_of_matchesAt (sub l : List Char) (h : matchesAt sub l = true) :
    includesAux sub l = true := by
  cases l with
  | nil =>
    cases sub with
    | nil => simp [includesAux]
    | cons p ps => simp [matchesAt] at h
  | cons c cs => simp [includesAux, h]

theorem includesAux_cons_of (sub : List Char) (c : Char) (rest : List Char)
    (h : includesAux sub rest = true) : includesAux sub (c :: rest) = true := by
  simp [includesAux, h]

theorem includesAux_append (sub pre t : List Char) :
    includesAux sub (pre ++ (sub ++ t)) = true := by
  induction pre with
  | nil => exact includesAux_of_matchesAt _ _ ((matchesAt_iff sub (sub ++ t)).mpr ⟨t, rfl⟩)
  | cons c cs ih => exact includesAux_cons_of _ _ _ ih

theorem findMatch_spec : ∀ (l tok : List Char), findMatch l = some tok →
    tok ≠ [] ∧ (∀ c ∈ tok, tokenChar c = true) ∧
      ∃ pre suf, l = pre ++ requestIdMarker ++ tok ++ suf := by
  intro l
  induction l with
  | nil => intro tok h; simp [findMatch] at h
  | cons c rest ih =>
    intro tok h
    rw [findMatch] at h
    by_cases hm : matchesAt requestIdMarker (c :: rest) = true
    · simp only [hm, if_true] at h
      by_cases ht : ((c :: rest).drop requestIdMarker.length).takeWhile tokenChar = []
      · simp only [ht, if_true] at h
        obtain ⟨hne, hmem, pre, suf, hdec⟩ := ih tok h
        exact ⟨hne, hmem, c :: pre, suf, by simp [hdec]⟩
      · simp only [ht, if_false] at h
        obtain ⟨t, hct⟩ := (matchesAt_iff requestIdMarker (c :: rest)).mp hm
        have hdrop : (c :: rest).drop requestIdMarker.length = t := by
          rw [hct]; exact List.drop_left _ _
        have htok : tok = t.takeWhile tokenChar := by
          rw [← Option.some.injEq, ← h, hdrop]
        refine ⟨?_, ?_, [], t.dropWhile tokenChar, ?_⟩
        · rw [htok]; rw [hdrop] at ht; exact ht
        · intro x hx
          rw [htok] at hx
          exact List.mem_takeWhile_imp hx
        · rw [hct, htok]
          simp [List.takeWhile_append_dropWhile]
    · simp only [Bool.not_eq_true] at hm
      simp only [hm, Bool.false_eq_true, if_false] at h
      obtain ⟨hne, hmem, pre, suf, hdec⟩ := ih tok h
      exact ⟨hne, hmem, c :: pre, suf, by simp [hdec]⟩

theorem extractRequestId_includes (s tok : String) (h : extractRequestId s = some tok) :
    jsIncludes s "Request ID: " = true := by
  unfold extractRequestId at h
  obtain ⟨l, hl, rfl⟩ : ∃ l, findMatch s.data = some l ∧ tok = ⟨l⟩ := by
    cases hfm : findMatch s.data with
    | none => rw [hfm] at h; simp at h
    | some l => rw [hfm] at h; exact ⟨l, rfl, by simpa using h.symm⟩
  obtain ⟨-, -, pre, suf, hdec⟩ := findMatch_spec _ _ hl
  show includesAux requestIdMarker s.data = true
  rw [hdec, List.append_assoc, List.append_assoc]
  exact includesAux_append _ _ _

theorem extractRequestId_eq_none_of_not_includes (s : String)
    (h : jsIncludes s "Request ID: " = false) : extractRequestId s = none := by
  cases he : extractRequestId s with
  | none => rfl
  | some tok => rw [extractRequestId_includes s tok he] at h; exact absurd h (by simp)

/-! ## Claims -/

/-- C1: if any of the five required fields is absent or falsy, the handler
answers 400 with the fixed error body naming all five required fields, and
the response does not depend on the upstream at all (no dispatch). -/
theorem claim1_missing_fields (r : ProxyRequest) (up up2 : UpstreamRequest → AxiosOutcome)
    (h : truthy r.jiraDomain = false ∨ truthy r.jiraEmail = false ∨
      truthy r.jiraToken = false ∨ truthy r.jiraApiEndpoint = false ∨
      truthy r.method = false) :
    handle r up = ⟨400, missingFieldsBody⟩ ∧ handle r up = handle r up2 ∧
    missingFieldsBody = .obj [("error", .str missingFieldsMessage)] ∧
    jsIncludes missingFieldsMessage "jiraDomain" = true ∧
    jsIncludes missingFieldsMessage "jiraEmail" = true ∧
    jsIncludes missingFieldsMessage "jiraToken" = true ∧
    jsIncludes missingFieldsMessage "jiraApiEndpoint" = true ∧
    jsIncludes missingFieldsMessage "method" = true := by
  have hv : hasRequiredFields r = false := by
    unfold hasRequiredFields
    rcases h with h | h | h | h | h <;> simp [h]
  refine ⟨?_, ?_, rfl, by decide, by decide, by decide, by decide, by decide⟩
  · simp [handle, hv]
  · simp [handle, hv]

/-- C1 witness: a request missing `jiraEmail` gets the 400 body, independently
of the upstream behaviour. -/
theorem claim1_missing_fields_witness :
    handle ⟨some "x.atlassian.net", none, some "t", some "myself", some "GET", Json.null⟩
        (fun _ => .errNoResponse "boom") = ⟨400, missingFieldsBody⟩ ∧
    handle ⟨some "x.atlassian.net", none, some "t", some "myself", some "GET", Json.null⟩
        (fun _ => .errNoResponse "boom")
      = handle ⟨some "x.atlassian.net", none, some "t", some "myself", some "GET", Json.null⟩
        (fun _ => .ok 200 Json.null) := by
  have h := claim1_missing_fields
    ⟨some "x.atlassian.net", none, some "t", some "myself", some "GET", Json.null⟩
    (fun _ => .errNoResponse "boom") (fun _ => .ok 200 Json.null)
    (Or.inr (Or.inl rfl))
  exact ⟨h.1, h.2.1⟩

/-- C2: for a validated request the outbound URL is exactly
`"https://" ++ jiraDomain ++ "/rest/api/3/" ++ jiraApiEndpoint` and the
Authorization header is `"Basic " ++ base64(jiraEmail ++ ":" ++ jiraToken)`. -/
theorem claim2_url_and_auth (r : ProxyRequest) (h : hasRequiredFields r = true) :
    (builtRequest r).url =
      "https://" ++ r.jiraDomain.getD "" ++ "/rest/api/3/" ++ r.jiraApiEndpoint.getD "" ∧
    (builtRequest r).authorization =
      "Basic " ++ base64Encode (r.jiraEmail.getD "" ++ ":" ++ r.jiraToken.getD "") := by
  constructor
  · show "https://" ++ r.jiraDomain.getD "" ++ "/rest/api/3" ++ "/" ++ r.jiraApiEndpoint.getD "" = _
    rw [String.append_assoc ("https://" ++ r.jiraDomain.getD "") "/rest/api/3" "/"]
    rfl
  · rfl

/-- C2 witness: the concrete example from the spec. -/
theorem claim2_url_and_auth_witness :
    (builtRequest ⟨some "x.atlassian.net", some "a@b.com", some "t", some "myself",
        some "GET", Json.null⟩).url = "https://x.atlassian.net/rest/api/3/myself" ∧
    (builtRequest ⟨some "x.atlassian.net", some "a@b.com", some "t", some "myself",
        some "GET", Json.null⟩).authorization = "Basic " ++ base64Encode "a@b.com:t" := by
  have h := claim2_url_and_auth
    ⟨some "x.atlassian.net", some "a@b.com", some "t", some "myself", some "GET", Json.null⟩ rfl
  exact ⟨h.1.trans rfl, h.2.trans rfl⟩

/-- C3: when the upstream resolves with status `s` and JSON body `d`, the
proxy responds with exactly status `s` and body `d` (verbatim passthrough). -/
theorem claim3_success_passthrough (r : ProxyRequest) (up : UpstreamRequest → AxiosOutcome)
    (s : Nat) (d : Json) (hv : hasRequiredFields r = true)
    (hu : up (builtRequest r) = .ok s d) :
    handle r up = ⟨s, d⟩ := by
  simp [handle, hv, hu]

/-- C3 witness: an echoing stub upstream with a concrete object body. -/
theorem claim3_success_passthrough_witness :
    handle ⟨some "x.atlassian.net", some "a@b.com", some "t", some "myself", some "GET",
        Json.null⟩ (fun _ => .ok 200 (.obj [("k", .str "v")]))
      = ⟨200, .obj [("k", .str "v")]⟩ :=
  claim3_success_passthrough _ _ 200 _ rfl rfl

/-- C4 (amended): for an upstream error with an HTML content type, the proxy
responds with the upstream status (502 when it is absent/zero) and the
`jiraHtmlError` body, with `cloudfrontRequestId` as `cloudfrontId` computes
it: the token at the first `"Request ID: "` occurrence that is immediately
followed by a non-whitespace, non-`<` character, `null` when there is none. -/
theorem claim4_html_error (r : ProxyRequest) (up : UpstreamRequest → AxiosOutcome)
    (s : Nat) (ct : Option String) (d : Json) (hv : hasRequiredFields r = true)
    (hu : up (builtRequest r) = .errResponse s ct d)
    (hh : isHtmlContentType ct = true) :
    handle r up = ⟨if s = 0 then 502 else s,
      .obj [("error", .str htmlErrorMessage), ("jiraHtmlError", .bool true),
            ("cloudfrontRequestId", cloudfrontId d)]⟩ ∧
    (cloudfrontId d = .null ∨ ∃ t, cloudfrontId d = .str t) := by
  refine ⟨by simp [handle, hv, hu, hh, htmlErrorBody], ?_⟩
  cases d with
  | str x =>
    cases he : extractRequestId x with
    | none => exact Or.inl (by simp [cloudfrontId, he])
    | some t => exact Or.inr ⟨t, by simp [cloudfrontId, he]⟩
  | null => exact Or.inl rfl
  | bool b => exact Or.inl rfl
  | num n => exact Or.inl rfl
  | arr xs => exact Or.inl rfl
  | obj fs => exact Or.inl rfl

/-- C4 witness: a 0/absent status defaults to 502 and a plain token after the
marker is extracted. -/
theorem claim4_html_error_witness :
    handle ⟨some "x.atlassian.net", some "a@b.com", some "t", some "myself", some "GET",
        Json.null⟩
      (fun _ => .errResponse 0 (some "text/html") (.str "Request ID: XYZ77 end"))
      = ⟨502, htmlErrorBody (.str "XYZ77")⟩ := by
  have h := claim4_html_error
    ⟨some "x.atlassian.net", some "a@b.com", some "t", some "myself", some "GET", Json.null⟩
    (fun _ => .errResponse 0 (some "text/html") (.str "Request ID: XYZ77 end"))
    0 (some "text/html") (.str "Request ID: XYZ77 end") rfl rfl rfl
  exact h.1.trans rfl

/-- C4 counterexample to the claim as stated: with upstream HTML body
`"Request ID: <Request ID: ABC"` the first `"Request ID: "` occurrence is
immediately followed by `<`, so no token can be extracted from the first
occurrence (the spec-side prediction is `null`), yet the handler returns
`"ABC"`, the token found at the second occurrence. -/
theorem claim4_first_occurrence_counterexample :
    handle ⟨some "x.atlassian.net", some "a@b.com", some "t", some "myself", some "GET",
        Json.null⟩
      (fun _ => .errResponse 403 (some "text/html") (.str "Request ID: <Request ID: ABC"))
      = ⟨403, htmlErrorBody (.str "ABC")⟩ ∧
    specCloudfrontId (.str "Request ID: <Request ID: ABC") = Json.null ∧
    htmlErrorBody (.str "ABC") ≠ htmlErrorBody Json.null :=
  ⟨rfl, rfl, by decide⟩

/-- C5: for an upstream error whose content type is not HTML, the proxy
responds with the upstream status verbatim and the structured body carrying
`jiraErrorStatus` and the upstream body verbatim in `jiraErrorData`. -/
theorem claim5_json_error (r : ProxyRequest) (up : UpstreamRequest → AxiosOutcome)
    (s : Nat) (ct : Option String) (d : Json) (hv : hasRequiredFields r = true)
    (hu : up (builtRequest r) = .errResponse s ct d)
    (hn : isHtmlContentType ct = false) :
    handle r up = ⟨s, jiraErrorBody s d⟩ ∧
    jiraErrorBody s d = .obj [("error", .str "Error from Jira API."),
      ("jiraErrorStatus", .num s), ("jiraErrorData", d)] :=
  ⟨by simp [handle, hv, hu, hn], rfl⟩

/-- C5 witness: a 404 with a JSON error body is passed through in
`jiraErrorData`. -/
theorem claim5_json_error_witness :
    handle ⟨some "x.atlassian.net", some "a@b.com", some "t", some "myself", some "GET",
        Json.null⟩
      (fun _ => .errResponse 404 (some "application/json")
        (.obj [("errorMessages", .arr [.str "Issue does not exist"])]))
      = ⟨404, jiraErrorBody 404 (.obj [("errorMessages", .arr [.str "Issue does not exist"])])⟩ :=
  (claim5_json_error
    ⟨some "x.atlassian.net", some "a@b.com", some "t", some "myself", some "GET", Json.null⟩
    (fun _ => .errResponse 404 (some "application/json")
      (.obj [("errorMessages", .arr [.str "Issue does not exist"])]))
    404 (some "application/json")
    (.obj [("errorMessages", .arr [.str "Issue does not exist"])]) rfl rfl rfl).1

/-- C6: when the outbound call gets no upstream response, the proxy responds
with the fixed status 504 and the structured gateway-timeout body. -/
theorem claim6_no_response (r : ProxyRequest) (up : UpstreamRequest → AxiosOutcome)
    (m : String) (hv : hasRequiredFields r = true)
    (hu : up (builtRequest r) = .errNoResponse m) :
    handle r up = ⟨504, noResponseBody⟩ ∧
    noResponseBody = .obj [("error", .str "No response received from Jira (Gateway Timeout).")] :=
  ⟨by simp [handle, hv, hu], rfl⟩

/-- C6 witness: a timed-out upstream yields 504. -/
theorem claim6_no_response_witness :
    handle ⟨some "x.atlassian.net", some "a@b.com", some "t", some "myself", some "GET",
        Json.null⟩ (fun _ => .errNoResponse "timeout of 20000ms exceeded")
      = ⟨504, noResponseBody⟩ :=
  (claim6_no_response
    ⟨some "x.atlassian.net", some "a@b.com", some "t", some "myself", some "GET", Json.null⟩
    (fun _ => .errNoResponse "timeout of 20000ms exceeded")
    "timeout of 20000ms exceeded" rfl rfl).1

/-- C7: when the outbound request cannot be constructed or sent, the proxy
responds with the fixed status 500 and a structured body surfacing the
underlying error message. -/
theorem claim7_setup_error (r : ProxyRequest) (up : UpstreamRequest → AxiosOutcome)
    (m : String) (hv : hasRequiredFields r = true)
    (hu : up (builtRequest r) = .errSetup m) :
    handle r up = ⟨500, setupErrorBody m⟩ ∧
    setupErrorBody m = .obj [("error", .str ("Proxy internal error: " ++ m))] :=
  ⟨by simp [handle, hv, hu], rfl⟩

/-- C7 witness: a setup failure message is surfaced in the 500 body. -/
theorem claim7_setup_error_witness :
    handle ⟨some "x.atlassian.net", some "a@b.com", some "t", some "myself", some "GET",
        Json.null⟩ (fun _ => .errSetup "Invalid URL")
      = ⟨500, .obj [("error", .str "Proxy internal error: Invalid URL")]⟩ := by
  have h := claim7_setup_error
    ⟨some "x.atlassian.net", some "a@b.com", some "t", some "myself", some "GET", Json.null⟩
    (fun _ => .errSetup "Invalid URL") "Invalid URL" rfl rfl
  exact h.1.trans rfl

/-- C8: the handler is a pure function of the inbound request and the
upstream behaviour (same behaviour, same response), and every outcome is one
of the six structured response shapes — no outcome escapes unhandled. -/
theorem claim8_deterministic (r : ProxyRequest) (up up2 : UpstreamRequest → AxiosOutcome)
    (hext : ∀ q, up q = up2 q) :
    handle r up = handle r up2 ∧
    (handle r up = ⟨400, missingFieldsBody⟩ ∨
     (∃ s d, up (builtRequest r) = .ok s d ∧ handle r up = ⟨s, d⟩) ∨
     (∃ s d, handle r up = ⟨if s = 0 then 502 else s, htmlErrorBody (cloudfrontId d)⟩) ∨
     (∃ s d, handle r up = ⟨s, jiraErrorBody s d⟩) ∨
     handle r up = ⟨504, noResponseBody⟩ ∨
     (∃ m, handle r up = ⟨500, setupErrorBody m⟩)) := by
  have hfun : up = up2 := funext hext
  subst hfun
  refine ⟨rfl, ?_⟩
  cases hv : hasRequiredFields r with
  | false => exact Or.inl (by simp [handle, hv])
  | true =>
    cases ho : up (builtRequest r) with
    | ok s d => exact Or.inr (Or.inl ⟨s, d, rfl, by simp [handle, hv, ho]⟩)
    | errResponse s ct d =>
      cases hct : isHtmlContentType ct with
      | true =>
        exact Or.inr (Or.inr (Or.inl ⟨s, d, by simp [handle, hv, ho, hct]⟩))
      | false =>
        exact Or.inr (Or.inr (Or.inr (Or.inl ⟨s, d, by simp [handle, hv, ho, hct]⟩)))
    | errNoResponse m =>
      exact Or.inr (Or.inr (Or.inr (Or.inr (Or.inl (by simp [handle, hv, ho])))))
    | errSetup m =>
      exact Or.inr (Or.inr (Or.inr (Or.inr (Or.inr ⟨m, by simp [handle, hv, ho]⟩))))

/-- C8 witness: two extensionally equal upstream behaviours give the same
response. -/
theorem claim8_deterministic_witness :
    handle ⟨some "x.atlassian.net", some "a@b.com", some "t", some "myself", some "GET",
        Json.null⟩ (fun _ => .ok 200 Json.null)
      = handle ⟨some "x.atlassian.net", some "a@b.com", some "t", some "myself", some "GET",
        Json.null⟩ (fun _ => .ok (100 + 100) Json.null) :=
  (claim8_deterministic
    ⟨some "x.atlassian.net", some "a@b.com", some "t", some "myself", some "GET", Json.null⟩
    (fun _ => .ok 200 Json.null) (fun _ => .ok (100 + 100) Json.null)
    (fun _ => rfl)).1

/-- C9: an upstream error is classified as the HTML/WAF outcome exactly when
the content-type header is present and contains `"text/html"`; otherwise the
generic `jiraErrorStatus`/`jiraErrorData` shape is used. -/
theorem claim9_html_classification (r : ProxyRequest) (up : UpstreamRequest → AxiosOutcome)
    (s : Nat) (ct : Option String) (d : Json) (hv : hasRequiredFields r = true)
    (hu : up (builtRequest r) = .errResponse s ct d) :
    ((handle r up).body = htmlErrorBody (cloudfrontId d) ↔ isHtmlContentType ct = true) ∧
    (isHtmlContentType ct = true ↔ ∃ cs, ct = some cs ∧ jsIncludes cs "text/html" = true) ∧
    (isHtmlContentType ct = false → handle r up = ⟨s, jiraErrorBody s d⟩) := by
  refine ⟨⟨?_, ?_⟩, ?_, ?_⟩
  · intro hb
    by_contra hct
    have hcf : isHtmlContentType ct = false := by
      cases hic : isHtmlContentType ct with
      | false => rfl
      | true => exact absurd hic hct
    have hbody : (handle r up).body = jiraErrorBody s d := by simp [handle, hv, hu, hcf]
    rw [hbody] at hb
    have hbeq : Json.beq (jiraErrorBody s d) (htmlErrorBody (cloudfrontId d)) = false := rfl
    rw [(Json.beq_iff _ _).mpr hb] at hbeq
    exact absurd hbeq (by simp)
  · intro hct
    simp [handle, hv, hu, hct]
  · cases ct with
    | none => simp [isHtmlContentType]
    | some cs => simp [isHtmlContentType]
  · intro hcf
    simp [handle, hv, hu, hcf]

/-- C9 witness: a `text/html; charset=UTF-8` content type is classified as
the HTML outcome; the same request with `application/json` is not. -/
theorem claim9_html_classification_witness :
    (handle ⟨some "x.atlassian.net", some "a@b.com", some "t", some "myself", some "GET",
        Json.null⟩
      (fun _ => .errResponse 403 (some "text/html; charset=UTF-8") (.str "<html></html>"))).body
      = htmlErrorBody (cloudfrontId (.str "<html></html>")) :=
  ((claim9_html_classification
    ⟨some "x.atlassian.net", some "a@b.com", some "t", some "myself", some "GET", Json.null⟩
    (fun _ => .errResponse 403 (some "text/html; charset=UTF-8") (.str "<html></html>"))
    403 (some "text/html; charset=UTF-8") (.str "<html></html>") rfl rfl).1).mpr rfl

/-- C10 (amended): in the HTML branch, `cloudfrontRequestId` is `null` when
the upstream body is not a string or contains no `"Request ID: "` marker;
when it is a string `t`, `t` is non-empty, all its characters are
non-whitespace and distinct from `<`, and `t` stands immediately after an
occurrence of the marker (the first occurrence that is followed by such a
character — not necessarily the first occurrence overall); and the
`jiraHtmlError` response is emitted in every case. -/
theorem claim10_extraction (r : ProxyRequest) (up : UpstreamRequest → AxiosOutcome)
    (s : Nat) (ct : Option String) (d : Json) (hv : hasRequiredFields r = true)
    (hu : up (builtRequest r) = .errResponse s ct d)
    (hh : isHtmlContentType ct = true) :
    handle r up = ⟨if s = 0 then 502 else s, htmlErrorBody (cloudfrontId d)⟩ ∧
    ((∀ x, d ≠ .str x) → cloudfrontId d = .null) ∧
    (∀ x, d = .str x → jsIncludes x "Request ID: " = false → cloudfrontId d = .null) ∧
    (∀ x t, d = .str x → cloudfrontId d = .str t →
      t ≠ "" ∧ (∀ c ∈ t.data, tokenChar c = true) ∧
      ∃ pre suf, x.data = pre ++ requestIdMarker ++ t.data ++ suf) := by
  refine ⟨by simp [handle, hv, hu, hh], ?_, ?_, ?_⟩
  · intro hx
    cases d with
    | str x => exact absurd rfl (hx x)
    | null => rfl
    | bool b => rfl
    | num n => rfl
    | arr xs => rfl
    | obj fs => rfl
  · intro x hdx hni
    subst hdx
    simp [cloudfrontId, extractRequestId_eq_none_of_not_includes x hni]
  · intro x t hdx hct
    subst hdx
    have hex : extractRequestId x = some t := by
      cases he : extractRequestId x with
      | none =>
        rw [show cloudfrontId (.str x) = Json.null by simp [cloudfrontId, he]] at hct
        exact absurd hct (fun hc => Json.noConfusion hc)
      | some u =>
        rw [show cloudfrontId (.str x) = Json.str u by simp [cloudfrontId, he]] at hct
        injection hct with hut
        rw [hut]
    obtain ⟨l, hl, rfl⟩ : ∃ l, findMatch x.data = some l ∧ t = ⟨l⟩ := by
      unfold extractRequestId at hex
      cases hfm : findMatch x.data with
      | none => rw [hfm] at hex; simp at hex
      | some l => rw [hfm] at hex; exact ⟨l, rfl, by simpa using hex.symm⟩
    obtain ⟨hne, hmem, pre, suf, hdec⟩ := findMatch_spec _ _ hl
    refine ⟨?_, ?_, pre, suf, ?_⟩
    · intro he
      apply hne
      have : (⟨l⟩ : String).data = ("" : String).data := by rw [he]
      simpa using this
    · intro c hc
      exact hmem c (by simpa using hc)
    · simpa using hdec

/-- C10 witness: a typical CloudFront HTML body yields the embedded token. -/
theorem claim10_extraction_witness :
    handle ⟨some "x.atlassian.net", some "a@b.com", some "t", some "myself", some "GET",
        Json.null⟩
      (fun _ => .errResponse 403 (some "text/html")
        (.str "<html>Generated by cloudfront. Request ID: AbC-123_x</html>"))
      = ⟨403, htmlErrorBody (.str "AbC-123_x")⟩ := by
  have h := claim10_extraction
    ⟨some "x.atlassian.net", some "a@b.com", some "t", some "myself", some "GET", Json.null⟩
    (fun _ => .errResponse 403 (some "text/html")
      (.str "<html>Generated by cloudfront. Request ID: AbC-123_x</html>"))
    403 (some "text/html")
    (.str "<html>Generated by cloudfront. Request ID: AbC-123_x</html>") rfl rfl rfl
  exact h.1.trans rfl

/-- C10 counterexample to the claim as stated: in
`"Request ID: \nRequest ID: XY9"` the first `"Request ID: "` marker is
followed by a newline, so the run of valid characters immediately after the
first marker is empty; the handler nevertheless extracts `"XY9"`, which
stands after the second marker, so a non-null `cloudfrontRequestId` is not
always taken immediately after the first marker. -/
theorem claim10_first_marker_counterexample :
    cloudfrontId (.str "Request ID: \nRequest ID: XY9") = .str "XY9" ∧
    specFirstMarkerRun ("Request ID: \nRequest ID: XY9").data = some [] ∧
    ("XY9" : String).data ≠ ([] : List Char) :=
  ⟨rfl, rfl, by decide⟩

end JiraProxy
